import Mathlib

/-!
# eCAL logging core (`ecal/core/src/logging/ecal_log_impl.cpp`)

A shallow embedding of the class `eCAL::CLog` and the properties of its
log routing, its receive buffer and its core timer.

Conventions of the embedding:

* the members of `CLog` are the fields of the structure `CLog`;
* everything outside the object that a member function reads is a field of
  `Env`, the environment at the moment of the call (`Process::*`,
  `Config::*`, `Util::*`, the file system and the clocks);
* everything outside the object that a member function writes is a field of
  `World` (standard output, the stream behind `m_logfile`, the messages
  handed to the UDP logging sender, and the function-local static
  `ecal_msg` of `CLog::Log`);
* a member function is a function from the state before the call to the
  state after it; a critical section under a mutex is one such step.
-/

namespace eCAL

/-! ## Log levels (`eCAL_Logging_eLogLevel`) and filter masks -/

/-- Modelled from the spec: the enumerators of `eCAL_Logging_eLogLevel`,
whose header is not among the sources; one bit per level, `none` no bit and
`all` every bit. This is the enumerator `log_level_none`. -/
def log_level_none : Nat := 0
/-- Modelled from the spec: enumerator `log_level_all`. -/
def log_level_all : Nat := 255
/-- Modelled from the spec: enumerator `log_level_info`. -/
def log_level_info : Nat := 1
/-- Modelled from the spec: enumerator `log_level_warning`. -/
def log_level_warning : Nat := 2
/-- Modelled from the spec: enumerator `log_level_error`. -/
def log_level_error : Nat := 4
/-- Modelled from the spec: enumerator `log_level_fatal`. -/
def log_level_fatal : Nat := 8
/-- Modelled from the spec: enumerator `log_level_debug1`. -/
def log_level_debug1 : Nat := 16
/-- Modelled from the spec: enumerator `log_level_debug2`. -/
def log_level_debug2 : Nat := 32
/-- Modelled from the spec: enumerator `log_level_debug3`. -/
def log_level_debug3 : Nat := 64
/-- Modelled from the spec: enumerator `log_level_debug4`. -/
def log_level_debug4 : Nat := 128

/-! ## Protobuf messages `eCAL::pb::LogMessage` and `eCAL::pb::Logging` -/

/-- Modelled from the spec: the message `eCAL::pb::LogMessage`, whose
generated header is not among the sources, with the seven fields of a log
sample; they are the fields that `CLog::Log` sets. -/
structure LogMessage where
  time : Int
  hname : String
  pid : Int
  pname : String
  uname : String
  level : Int
  content : String
  deriving DecidableEq

/-- Protobuf `Clear()`: every field back to its default value. -/
def LogMessage.Clear (_m : LogMessage) : LogMessage :=
  { time := 0, hname := "", pid := 0, pname := "", uname := "", level := 0, content := "" }

/-- Modelled from the spec: the message `eCAL::pb::Logging`, whose generated
header is not among the sources: a repeated field `logs`. -/
structure Logging where
  logs : List LogMessage
  deriving DecidableEq

/-- Protobuf `Clear()` on `Logging`: the repeated field becomes empty. -/
def Logging.Clear (_l : Logging) : Logging :=
  { logs := [] }

/-- Calls `add_logs()` and then `CopyFrom(m)` on the new element: one copy of
`m` at the end of the repeated field. -/
def Logging.add_logs_CopyFrom (l : Logging) (m : LogMessage) : Logging :=
  { logs := l.logs ++ [m] }

/-! ## Sender and receiver attributes -/

/-- The attributes `IO::UDP::SSenderAttr` as `CLog::Create` fills them. -/
structure SSenderAttr where
  address : String
  port : Int
  ttl : Int
  broadcast : Bool
  loopback : Bool
  sndbuf : Int
  deriving DecidableEq

/-- The attributes `IO::UDP::SReceiverAttr` as `CLog::Create` fills them. -/
structure SReceiverAttr where
  address : String
  port : Int
  broadcast : Bool
  loopback : Bool
  rcvbuf : Int
  deriving DecidableEq

/-! ## Environment, outside world and object state -/

/-- What a member function of `CLog` reads from outside the object at the
moment it is called; each field is the result of the call of that name.
The filter values are the bit patterns of the type `eCAL_Logging_Filter`;
`stat_isdir` and `fopen_w_ok` are the file system (is the path a directory,
does `fopen(name, "w")` succeed); the two clocks are tick counts in
nanoseconds; `to_double` is the rounding of a real number to a `double`. -/
structure Env where
  GetHostName : String
  GetProcessID : Int
  GetProcessName : String
  GetUnitName : String
  GetConsoleLogFilter : Nat
  GetFileLogFilter : Nat
  GetUdpLogFilter : Nat
  IsNetworkEnabled : Bool
  GeteCALLogPath : String
  stat_isdir : String → Bool
  fopen_w_ok : String → Bool
  get_time_str : String
  GetLoggingAddress : String
  GetLoggingPort : Int
  GetMulticastTtl : Int
  IsBroadcast : Bool
  GetUdpMulticastSndBufSizeBytes : Int
  GetUdpMulticastRcvBufSizeBytes : Int
  ecal_clock_now : Int
  steady_clock_now : Int
  to_double : ℚ → ℚ

/-- What a member function of `CLog` writes outside the object: the lines
put on `std::cout`, the strings printed to the stream `m_logfile`, the
messages passed to `m_udp_logging_sender->Send`, and the function-local
static `ecal_msg` of `CLog::Log`, which lives on between calls. -/
structure World where
  cout : List String
  logfile : List String
  udp_sent : List LogMessage
  ecal_msg : LogMessage
  deriving DecidableEq

/-- The data members of `eCAL::CLog`. `m_logfile` is `none` for `nullptr`
and `some name` for an open stream; the two smart pointers are `none` when
empty. `m_core_time` is the value of the `std::chrono::duration<double>`,
in seconds. -/
structure CLog where
  m_created : Bool
  m_hname : String
  m_pid : Int
  m_pname : String
  m_logfile_name : String
  m_logfile : Option String
  m_level : Nat
  m_filter_mask_con : Nat
  m_filter_mask_file : Nat
  m_filter_mask_udp : Nat
  m_udp_logging_sender : Option SSenderAttr
  m_log_receiver : Option SReceiverAttr
  m_log_msglist : List LogMessage
  m_core_time_start : Int
  m_core_time : ℚ
  deriving DecidableEq

/-- The constructor `CLog::CLog()`: the state of a new object. -/
def CLog.new : CLog :=
  { m_created := false
    m_hname := ""
    m_pid := 0
    m_pname := ""
    m_logfile_name := ""
    m_logfile := none
    m_level := log_level_none
    m_filter_mask_con :=
      log_level_info ||| log_level_warning ||| log_level_error ||| log_level_fatal
    m_filter_mask_file :=
      log_level_info ||| log_level_warning ||| log_level_error ||| log_level_fatal
        ||| log_level_debug1 ||| log_level_debug2
    m_filter_mask_udp :=
      log_level_info ||| log_level_warning ||| log_level_error ||| log_level_fatal
        ||| log_level_debug1 ||| log_level_debug2
    m_udp_logging_sender := none
    m_log_receiver := none
    m_log_msglist := []
    m_core_time_start := 0
    m_core_time := -1 }

/-! ## Create and Destroy -/

/-- The static helper `isDirectory`. -/
def isDirectory (env : Env) (path_ : String) : Bool :=
  if path_ = "" then false else env.stat_isdir path_

/-- The part of `CLog::Create` after the log file block: the UDP logging
sender (only for a non-zero UDP mask), the logging receiver, and
`m_created = true`. -/
def CLog.Create_sender_receiver (env : Env) (s : CLog) : CLog :=
  let s1 : CLog :=
    if s.m_filter_mask_udp ≠ 0 then
      { s with
        m_udp_logging_sender := some
          { address := env.GetLoggingAddress
            port := env.GetLoggingPort
            ttl := env.GetMulticastTtl
            broadcast := env.IsBroadcast
            loopback := true
            sndbuf := env.GetUdpMulticastSndBufSizeBytes } }
    else s
  { s1 with
    m_log_receiver := some
      { address := env.GetLoggingAddress
        port := env.GetLoggingPort
        broadcast := env.IsBroadcast
        loopback := true
        rcvbuf := env.GetUdpMulticastRcvBufSizeBytes }
    m_created := true }

/-- The member function `CLog::Create`. With a non-zero file mask and a log
path that is not a directory the function returns right after the masks are
read. -/
def CLog.Create (env : Env) (s : CLog) (w : World) : CLog × World :=
  let s1 : CLog :=
    { s with
      m_hname := env.GetHostName
      m_pid := env.GetProcessID
      m_pname := env.GetProcessName
      m_level := log_level_info }
  let s2 : CLog :=
    { s1 with
      m_filter_mask_con := env.GetConsoleLogFilter
      m_filter_mask_file := env.GetFileLogFilter
      m_filter_mask_udp := env.GetUdpLogFilter }
  if s2.m_filter_mask_file ≠ 0 then
    let ecal_log_path := env.GeteCALLogPath
    if !isDirectory env ecal_log_path then (s2, w)
    else
      let tstring := env.get_time_str
      let name := ecal_log_path ++ tstring ++ "_" ++ env.GetUnitName ++ "_"
        ++ toString s2.m_pid ++ ".log"
      if env.fopen_w_ok name then
        (CLog.Create_sender_receiver env
            { s2 with m_logfile_name := name, m_logfile := some name },
          { w with logfile := [] })
      else
        (CLog.Create_sender_receiver env
            { s2 with m_logfile_name := name, m_logfile := none }, w)
  else (CLog.Create_sender_receiver env s2, w)

/-- The member function `CLog::Destroy`. -/
def CLog.Destroy (s : CLog) : CLog :=
  if !s.m_created then s
  else { s with m_udp_logging_sender := none, m_logfile := none, m_created := false }

/-! ## Log level -/

/-- The member function `CLog::SetLogLevel`. -/
def CLog.SetLogLevel (s : CLog) (level_ : Nat) : CLog :=
  { s with m_level := level_ }

/-- The member function `CLog::GetLogLevel`. -/
def CLog.GetLogLevel (s : CLog) : Nat :=
  s.m_level

/-! ## Log -/

/-- The text the `switch` of `CLog::Log` puts into the file line for a
level; nothing for `log_level_none`, `log_level_all` and any value that is
no enumerator. -/
def level_name (level_ : Nat) : String :=
  if level_ = log_level_info then "info"
  else if level_ = log_level_warning then "warning"
  else if level_ = log_level_error then "error"
  else if level_ = log_level_fatal then "fatal"
  else if level_ = log_level_debug1 then "debug1"
  else if level_ = log_level_debug2 then "debug2"
  else if level_ = log_level_debug3 then "debug3"
  else if level_ = log_level_debug4 then "debug4"
  else ""

/-- What `printf("%s")` prints for `str.c_str()`: the characters before the
first NUL. -/
def c_str (str : String) : String :=
  String.mk (str.toList.takeWhile (fun c => c ≠ Char.ofNat 0))

/-- The content of `msg_stream` in the file branch of `CLog::Log`; the log
time is in nanoseconds and printed in milliseconds. -/
def file_line (env : Env) (s : CLog) (log_time : Int) (level_ : Nat) (msg_ : String) :
    String :=
  toString (Int.tdiv log_time 1000000) ++ " ms" ++ " | " ++ s.m_hname ++ " | "
    ++ env.GetUnitName ++ " | " ++ toString s.m_pid ++ " | " ++ level_name level_
    ++ " | " ++ msg_

/-- The message `CLog::Log` sets up in the static `ecal_msg` before it is
sent: `Clear()` and then the seven setters. -/
def compose_ecal_msg (env : Env) (s : CLog) (old : LogMessage) (log_time : Int)
    (level_ : Nat) (msg_ : String) : LogMessage :=
  let m0 := old.Clear
  let m1 := { m0 with time := Int.tdiv log_time 1000 }
  let m2 := { m1 with hname := s.m_hname }
  let m3 := { m2 with pid := s.m_pid }
  let m4 := { m3 with pname := s.m_pname }
  let m5 := { m4 with uname := env.GetUnitName }
  let m6 := { m5 with level := (level_ : Int) }
  { m6 with content := msg_ }

/-- The member function `CLog::Log(level_, msg_)`. -/
def CLog.Log (env : Env) (s : CLog) (w : World) (level_ : Nat) (msg_ : String) :
    CLog × World :=
  if !s.m_created then (s, w)
  else if msg_ = "" then (s, w)
  else
    let log_con := level_ &&& s.m_filter_mask_con
    let log_file := level_ &&& s.m_filter_mask_file
    let log_udp := level_ &&& s.m_filter_mask_udp
    if (log_con ||| log_file ||| log_udp) = 0 then (s, w)
    else
      let log_time := env.ecal_clock_now
      let w1 : World :=
        if log_con ≠ 0 then { w with cout := w.cout ++ [msg_] } else w
      let w2 : World :=
        if log_file ≠ 0 ∧ s.m_logfile ≠ none then
          { w1 with
            logfile := w1.logfile ++ [c_str (file_line env s log_time level_ msg_) ++ "\n"] }
        else w1
      let w3 : World :=
        if log_udp ≠ 0 ∧ s.m_udp_logging_sender ≠ none then
          let m := compose_ecal_msg env s w2.ecal_msg log_time level_ msg_
          { w2 with ecal_msg := m, udp_sent := w2.udp_sent ++ [m] }
        else w2
      (s, w3)

/-- The member function `CLog::Log(msg_)`. -/
def CLog.Log_msg (env : Env) (s : CLog) (w : World) (msg_ : String) : CLog × World :=
  CLog.Log env s w s.m_level msg_

/-! ## Core timer -/

/-- Conversion of a `steady_clock` duration (a count of nanoseconds) to
`std::chrono::duration<double>`: the count is cast to `double` and divided
by the `double` 1e9. -/
def to_duration_double (env : Env) (ns : Int) : ℚ :=
  env.to_double (env.to_double (ns : ℚ) / env.to_double 1000000000)

/-- The member function `CLog::StartCoreTimer`. -/
def CLog.StartCoreTimer (env : Env) (s : CLog) : CLog :=
  { s with m_core_time_start := env.steady_clock_now }

/-- The member function `CLog::StopCoreTimer`. -/
def CLog.StopCoreTimer (env : Env) (s : CLog) : CLog :=
  { s with m_core_time := to_duration_double env (env.steady_clock_now - s.m_core_time_start) }

/-- The member function `CLog::SetCoreTime`. -/
def CLog.SetCoreTime (s : CLog) (time_ : ℚ) : CLog :=
  { s with m_core_time := time_ }

/-- The member function `CLog::GetCoreTime`. -/
def CLog.GetCoreTime (s : CLog) : ℚ :=
  s.m_core_time

/-! ## Receive buffer -/

/-- The `while` loop of `CLog::GetLogging` from the iterator position whose
remaining elements are the first argument. -/
def GetLogging_loop : List LogMessage → Logging → Logging
  | [], logging_ => logging_
  | m :: rest, logging_ => GetLogging_loop rest (logging_.add_logs_CopyFrom m)

/-- The member function `CLog::GetLogging`. -/
def CLog.GetLogging (s : CLog) (logging_ : Logging) : CLog × Logging :=
  let l0 := logging_.Clear
  let l1 := GetLogging_loop s.m_log_msglist l0
  ({ s with m_log_msglist := [] }, l1)

/-- The member function `CLog::RegisterLogMessage`. -/
def CLog.RegisterLogMessage (env : Env) (s : CLog) (log_msg_ : LogMessage) : CLog :=
  if s.m_hname = log_msg_.hname ∨ env.IsNetworkEnabled = true then
    { s with m_log_msglist := s.m_log_msglist ++ [log_msg_] }
  else s

/-! ## Runs of calls on one logger -/

/-- A call of a member function of a `CLog` object after its `Create`. -/
inductive Call where
  | Log (level_ : Nat) (msg_ : String)
  | Log_msg (msg_ : String)
  | SetLogLevel (level_ : Nat)
  | StartCoreTimer
  | StopCoreTimer
  | SetCoreTime (time_ : ℚ)
  | GetLogging (logging_ : Logging)
  | RegisterLogMessage (log_msg_ : LogMessage)
  | Destroy

/-- A logger together with the outside world it writes to and the values
its `GetLogging` calls have returned so far, oldest first. -/
structure Sys where
  log : CLog
  world : World
  drained : List Logging
  deriving DecidableEq

/-- One call, made in the environment `env`. -/
def step (env : Env) (c : Call) (σ : Sys) : Sys :=
  match c with
  | .Log level_ msg_ =>
      let r := σ.log.Log env σ.world level_ msg_
      { σ with log := r.1, world := r.2 }
  | .Log_msg msg_ =>
      let r := σ.log.Log_msg env σ.world msg_
      { σ with log := r.1, world := r.2 }
  | .SetLogLevel level_ => { σ with log := σ.log.SetLogLevel level_ }
  | .StartCoreTimer => { σ with log := σ.log.StartCoreTimer env }
  | .StopCoreTimer => { σ with log := σ.log.StopCoreTimer env }
  | .SetCoreTime time_ => { σ with log := σ.log.SetCoreTime time_ }
  | .GetLogging logging_ =>
      let r := σ.log.GetLogging logging_
      { σ with log := r.1, drained := σ.drained ++ [r.2] }
  | .RegisterLogMessage log_msg_ => { σ with log := σ.log.RegisterLogMessage env log_msg_ }
  | .Destroy => { σ with log := σ.log.Destroy }

/-- A sequence of calls, each with the environment at the moment of the
call, made one after the other. -/
def run : List (Env × Call) → Sys → Sys
  | [], σ => σ
  | (env, c) :: rest, σ => run rest (step env c σ)

/-- All records the `GetLogging` calls of a run have returned, in the order
of delivery. -/
def delivered (σ : Sys) : List LogMessage :=
  (σ.drained.map Logging.logs).flatten

/-- The records of a call sequence that meet the acceptance condition of
the specification (origin is the local host `hname`, or the network
visibility flag is set when the record arrives), in arrival order. -/
def accepted (hname : String) : List (Env × Call) → List LogMessage
  | [] => []
  | (env, .RegisterLogMessage r) :: rest =>
      if hname = r.hname ∨ env.IsNetworkEnabled = true then r :: accepted hname rest
      else accepted hname rest
  | (_, _) :: rest => accepted hname rest

/-- The environments `e1` and `e2` differ at most in the configuration
values: the three filter masks and the network flag. -/
def same_except_config (e1 e2 : Env) : Prop :=
  e2 = { e1 with
    GetConsoleLogFilter := e2.GetConsoleLogFilter
    GetFileLogFilter := e2.GetFileLogFilter
    GetUdpLogFilter := e2.GetUdpLogFilter
    IsNetworkEnabled := e2.IsNetworkEnabled }

/-- Two call sequences made of the same calls, in environments that differ
at most in the configuration values. -/
def same_calls_except_config (t1 t2 : List (Env × Call)) : Prop :=
  List.Forall₂ (fun a b => a.2 = b.2 ∧ same_except_config a.1 b.1) t1 t2

/-- As `same_calls_except_config`, and at every `RegisterLogMessage` call the
network flag has the same value in both sequences. -/
def same_calls_except_masks (t1 t2 : List (Env × Call)) : Prop :=
  List.Forall₂
    (fun a b => a.2 = b.2 ∧ same_except_config a.1 b.1 ∧
      ((∃ r, a.2 = Call.RegisterLogMessage r) → a.1.IsNetworkEnabled = b.1.IsNetworkEnabled))
    t1 t2

/-! ## Concrete values used in the examples -/

/-- An environment: host `hostA`, process 4711, default masks of the
constructor, local-only policy, an existing log directory in which the log
file can be opened, exact `double` arithmetic. -/
def env_hostA : Env :=
  { GetHostName := "hostA"
    GetProcessID := 4711
    GetProcessName := "proc"
    GetUnitName := "unit"
    GetConsoleLogFilter := 15
    GetFileLogFilter := 63
    GetUdpLogFilter := 63
    IsNetworkEnabled := false
    GeteCALLogPath := "/var/log/ecal/"
    stat_isdir := fun _ => true
    fopen_w_ok := fun _ => true
    get_time_str := "2024-01-01-00-00-00"
    GetLoggingAddress := "239.0.0.1"
    GetLoggingPort := 14001
    GetMulticastTtl := 2
    IsBroadcast := false
    GetUdpMulticastSndBufSizeBytes := 5242880
    GetUdpMulticastRcvBufSizeBytes := 5242880
    ecal_clock_now := 1700000000123456789
    steady_clock_now := 5000
    to_double := fun q => q }

/-- An outside world in which nothing has been written yet. -/
def world_empty : World :=
  { cout := [], logfile := [], udp_sent := [], ecal_msg := LogMessage.Clear ⟨7, "x", 1, "y", "z", 2, "old"⟩ }

/-- A record that comes from the host `hostB`. -/
def record_hostB : LogMessage :=
  { time := 1, hname := "hostB", pid := 2, pname := "other", uname := "u", level := 2, content := "remote" }

/-- A record that comes from the host `hostA`. -/
def record_hostA : LogMessage :=
  { time := 3, hname := "hostA", pid := 4711, pname := "proc", uname := "unit", level := 1, content := "local" }

/-- As `env_hostA`, with the console mask `error | fatal`. -/
def env_con_errors : Env :=
  { env_hostA with GetConsoleLogFilter := log_level_error ||| log_level_fatal }

/-- As `env_hostA`, but the log path is not a directory. -/
def env_no_log_dir : Env :=
  { env_hostA with stat_isdir := fun _ => false }

/-- As `env_hostA`, but the log file cannot be opened. -/
def env_fopen_fails : Env :=
  { env_hostA with fopen_w_ok := fun _ => false }

/-- As `env_hostA`, with the network flag set. -/
def env_network : Env :=
  { env_hostA with IsNetworkEnabled := true }

/-- As `env_hostA`, with the monotonic clock at a later reading. -/
def env_later : Env :=
  { env_hostA with steady_clock_now := 2000005000 }

/-- The system right after `Create` was called, in the environment `env`, on
the logger `s` with the outside world `w`: nothing has been drained yet. -/
def after_Create (env : Env) (s : CLog) (w : World) : Sys :=
  { log := (CLog.Create env s w).1, world := (CLog.Create env s w).2, drained := [] }

/-- The call is not `StartCoreTimer`. -/
def no_StartCoreTimer_call : Call → Bool
  | .StartCoreTimer => false
  | _ => true

/-- The call is neither `StopCoreTimer` nor `SetCoreTime`. -/
def no_StopCoreTimer_SetCoreTime_call : Call → Bool
  | .StopCoreTimer => false
  | .SetCoreTime _ => false
  | _ => true

/-- The call is not `SetLogLevel`. -/
def no_SetLogLevel_call : Call → Bool
  | .SetLogLevel _ => false
  | _ => true

/-! ## The monitoring facade (`ecal/core/src/monitoring/ecal_monitoring_def.cpp`) -/

/-- The conversion `(int)` of a `size_t` value, for a 32 bit `int`: the value
modulo 2^32, read as a two's complement number. -/
def cast_int (n : Nat) : Int :=
  ((n + 2147483648) % 4294967296 : Nat) - 2147483648

/-- The function `eCAL::Monitoring::GetLogging(std::string& log_)`. The
global logger `g_log()` is `none` for `nullptr`; a `std::string` is the list
of its bytes; the protobuf function `SerializeAsString`, which is not part
of the sources, is a parameter. The result is the global logger after the
call, the new content of `log_`, and the returned `int`. -/
def Monitoring.GetLogging (SerializeAsString : Logging → List Nat) (g_log : Option CLog)
    (_log_ : List Nat) : Option CLog × List Nat × Int :=
  let logging : Logging := { logs := [] }
  let r : Option CLog × Logging :=
    match g_log with
    | some s => (some (s.GetLogging logging).1, (s.GetLogging logging).2)
    | none => (none, logging)
  let log_ := SerializeAsString r.2
  (r.1, log_, cast_int log_.length)

/-- A stand-in for `SerializeAsString` in the examples: per record a tag
byte, the length of the content, and the content's characters as bytes. -/
def toy_SerializeAsString (l : Logging) : List Nat :=
  l.logs.flatMap
    (fun m => 10 :: m.content.length % 256 :: m.content.toList.map (fun c => c.toNat % 256))

/-- A created logger on `hostA` that has buffered the record
`record_hostA`. -/
def log_hostA_one_record : CLog :=
  (after_Create env_hostA CLog.new world_empty).log.RegisterLogMessage env_hostA record_hostA

/-! ## Basic facts about the member functions -/

theorem GetLogging_loop_eq (l : List LogMessage) (lg : Logging) :
    GetLogging_loop l lg = { logs := lg.logs ++ l } := by
  induction l generalizing lg with
  | nil => simp [GetLogging_loop]
  | cons m rest ih => simp [GetLogging_loop, ih, Logging.add_logs_CopyFrom]

theorem GetLogging_eq (s : CLog) (logging_ : Logging) :
    s.GetLogging logging_ = ({ s with m_log_msglist := [] }, { logs := s.m_log_msglist }) := by
  simp [CLog.GetLogging, GetLogging_loop_eq, Logging.Clear]

theorem Log_fst (env : Env) (s : CLog) (w : World) (level_ : Nat) (msg_ : String) :
    (s.Log env w level_ msg_).1 = s := by
  unfold CLog.Log
  by_cases h1 : (!s.m_created) = true
  · simp [h1]
  · by_cases h2 : msg_ = ""
    · simp [h2]
    · simp only [h1, h2, if_false]
      split_ifs <;> rfl

theorem RegisterLogMessage_hname (env : Env) (s : CLog) (r : LogMessage) :
    (s.RegisterLogMessage env r).m_hname = s.m_hname := by
  unfold CLog.RegisterLogMessage
  split_ifs <;> rfl

theorem Destroy_hname (s : CLog) : s.Destroy.m_hname = s.m_hname := by
  unfold CLog.Destroy
  split_ifs <;> rfl

theorem Destroy_msglist (s : CLog) : s.Destroy.m_log_msglist = s.m_log_msglist := by
  unfold CLog.Destroy
  split_ifs <;> rfl

theorem step_hname (env : Env) (c : Call) (σ : Sys) :
    (step env c σ).log.m_hname = σ.log.m_hname := by
  cases c <;>
    simp [step, CLog.Log_msg, Log_fst, CLog.SetLogLevel, CLog.StartCoreTimer,
      CLog.StopCoreTimer, CLog.SetCoreTime, GetLogging_eq, RegisterLogMessage_hname,
      Destroy_hname]

theorem RegisterLogMessage_pid_pname (env : Env) (s : CLog) (r : LogMessage) :
    (s.RegisterLogMessage env r).m_pid = s.m_pid ∧
    (s.RegisterLogMessage env r).m_pname = s.m_pname := by
  unfold CLog.RegisterLogMessage
  split_ifs <;> exact ⟨rfl, rfl⟩

theorem Destroy_pid_pname (s : CLog) :
    s.Destroy.m_pid = s.m_pid ∧ s.Destroy.m_pname = s.m_pname := by
  unfold CLog.Destroy
  split_ifs <;> exact ⟨rfl, rfl⟩

theorem step_pid_pname (env : Env) (c : Call) (σ : Sys) :
    (step env c σ).log.m_pid = σ.log.m_pid ∧ (step env c σ).log.m_pname = σ.log.m_pname := by
  cases c <;>
    simp [step, CLog.Log_msg, Log_fst, CLog.SetLogLevel, CLog.StartCoreTimer,
      CLog.StopCoreTimer, CLog.SetCoreTime, GetLogging_eq, RegisterLogMessage_pid_pname,
      Destroy_pid_pname]

theorem run_identity (t : List (Env × Call)) (σ : Sys) :
    (run t σ).log.m_hname = σ.log.m_hname ∧ (run t σ).log.m_pid = σ.log.m_pid ∧
    (run t σ).log.m_pname = σ.log.m_pname := by
  induction t generalizing σ with
  | nil => simp [run]
  | cons a rest ih =>
      obtain ⟨env, c⟩ := a
      rw [run, (ih _).1, (ih _).2.1, (ih _).2.2, step_hname, (step_pid_pname env c σ).1,
        (step_pid_pname env c σ).2]
      exact ⟨rfl, rfl, rfl⟩

theorem step_delivered (env : Env) (c : Call) (σ : Sys) :
    delivered (step env c σ) ++ (step env c σ).log.m_log_msglist
      = delivered σ ++ σ.log.m_log_msglist ++ accepted σ.log.m_hname [(env, c)] := by
  cases c with
  | RegisterLogMessage r =>
      by_cases h : σ.log.m_hname = r.hname ∨ env.IsNetworkEnabled = true
      · simp [step, delivered, accepted, CLog.RegisterLogMessage, h]
      · simp [step, delivered, accepted, CLog.RegisterLogMessage, h]
  | GetLogging lg => simp [step, delivered, accepted, GetLogging_eq]
  | Destroy => simp [step, delivered, accepted, Destroy_msglist]
  | _ =>
      simp [step, delivered, accepted, CLog.Log_msg, Log_fst, CLog.SetLogLevel,
        CLog.StartCoreTimer, CLog.StopCoreTimer, CLog.SetCoreTime]

theorem accepted_cons (hname : String) (a : Env × Call) (t : List (Env × Call)) :
    accepted hname (a :: t) = accepted hname [a] ++ accepted hname t := by
  obtain ⟨env, c⟩ := a
  cases c <;> simp [accepted]
  split_ifs <;> simp

theorem run_delivered (t : List (Env × Call)) (σ : Sys) :
    delivered (run t σ) ++ (run t σ).log.m_log_msglist
      = delivered σ ++ σ.log.m_log_msglist ++ accepted σ.log.m_hname t := by
  induction t generalizing σ with
  | nil => simp [run, accepted]
  | cons a rest ih =>
      obtain ⟨env, c⟩ := a
      rw [run, ih, step_delivered, step_hname, accepted_cons σ.log.m_hname (env, c) rest]
      simp [List.append_assoc]

/-! ## The receive buffer: claims C1 to C3 -/

/-- C1: `RegisterLogMessage` accepts a record exactly when its host name is
the logger's host name or the network flag is set. When the condition holds
the logger afterwards is the logger before with the record appended at the
end of the buffer; when it does not hold the logger is unchanged, a
following `GetLogging` returns the old buffer, and the record is not in the
returned sequence unless an equal record was buffered before (it never is
when all buffered records are local ones). -/
theorem C1_RegisterLogMessage_accepts_iff (env : Env) (s : CLog) (r : LogMessage)
    (out : Logging) :
    ((s.m_hname = r.hname ∨ env.IsNetworkEnabled = true) →
      s.RegisterLogMessage env r = { s with m_log_msglist := s.m_log_msglist ++ [r] }) ∧
    (¬ (s.m_hname = r.hname ∨ env.IsNetworkEnabled = true) →
      s.RegisterLogMessage env r = s ∧
      ((s.RegisterLogMessage env r).GetLogging out).2.logs = s.m_log_msglist ∧
      (r ∉ s.m_log_msglist → r ∉ ((s.RegisterLogMessage env r).GetLogging out).2.logs) ∧
      ((∀ m ∈ s.m_log_msglist, m.hname = s.m_hname) →
        r ∉ ((s.RegisterLogMessage env r).GetLogging out).2.logs)) := by
  constructor
  · intro h
    simp [CLog.RegisterLogMessage, h]
  · intro h
    have hs : s.RegisterLogMessage env r = s := by simp [CLog.RegisterLogMessage, h]
    rw [hs, GetLogging_eq]
    refine ⟨rfl, rfl, fun hr => hr, fun hall hr => ?_⟩
    exact h (Or.inl (hall r hr).symm)

/-- C2: `GetLogging` returns exactly the buffered records in buffer order,
whatever the output object held before, and leaves the buffer empty and the
rest of the logger as it was; a second `GetLogging` right after it returns
the empty sequence, and the first result is non-empty when the buffer held
a record. -/
theorem C2_GetLogging_returns_and_clears (s : CLog) (out out2 : Logging) :
    (s.GetLogging out).2.logs = s.m_log_msglist ∧
    (s.GetLogging out).1 = { s with m_log_msglist := [] } ∧
    ((s.GetLogging out).1.GetLogging out2).2.logs = [] ∧
    (s.m_log_msglist ≠ [] → (s.GetLogging out).2.logs ≠ []) := by
  simp [GetLogging_eq]

/-- C3: for every sequence of calls on a logger whose buffer starts empty
(calls of `RegisterLogMessage` and `GetLogging`, and of the other member
functions in between), the records returned by the `GetLogging` calls, in
order of delivery, followed by the records still buffered, are exactly the
accepted records in arrival order: each accepted record appears once. -/
theorem C3_delivered_then_buffered_eq_accepted (t : List (Env × Call)) (s : CLog)
    (w : World) :
    delivered (run t ⟨{ s with m_log_msglist := [] }, w, []⟩)
        ++ (run t ⟨{ s with m_log_msglist := [] }, w, []⟩).log.m_log_msglist
      = accepted s.m_hname t := by
  rw [run_delivered]
  simp [delivered]

/-! ## Routing of `Log`: claims C4 to C6 -/

theorem Nat_lor_eq_zero (a b : Nat) : a ||| b = 0 ↔ a = 0 ∧ b = 0 := by
  constructor
  · intro h
    constructor
    · apply Nat.eq_of_testBit_eq
      intro i
      have := congrArg (fun n => n.testBit i) h
      simp at this
      simp [this.1]
    · apply Nat.eq_of_testBit_eq
      intro i
      have := congrArg (fun n => n.testBit i) h
      simp at this
      simp [this.2]
  · rintro ⟨rfl, rfl⟩
    simp

theorem Log_not_created (env : Env) (s : CLog) (w : World) (level_ : Nat) (msg_ : String)
    (h : s.m_created = false ∨ msg_ = "") : s.Log env w level_ msg_ = (s, w) := by
  unfold CLog.Log
  rcases h with h | h
  · simp [h]
  · simp [h]

theorem Log_world (env : Env) (s : CLog) (w : World) (level_ : Nat) (msg_ : String)
    (hc : s.m_created = true) (hm : msg_ ≠ "") :
    (s.Log env w level_ msg_).2 =
      { cout := if level_ &&& s.m_filter_mask_con ≠ 0 then w.cout ++ [msg_] else w.cout
        logfile :=
          if level_ &&& s.m_filter_mask_file ≠ 0 ∧ s.m_logfile ≠ none then
            w.logfile ++ [c_str (file_line env s env.ecal_clock_now level_ msg_) ++ "\n"]
          else w.logfile
        udp_sent :=
          if level_ &&& s.m_filter_mask_udp ≠ 0 ∧ s.m_udp_logging_sender ≠ none then
            w.udp_sent ++ [compose_ecal_msg env s w.ecal_msg env.ecal_clock_now level_ msg_]
          else w.udp_sent
        ecal_msg :=
          if level_ &&& s.m_filter_mask_udp ≠ 0 ∧ s.m_udp_logging_sender ≠ none then
            compose_ecal_msg env s w.ecal_msg env.ecal_clock_now level_ msg_
          else w.ecal_msg } := by
  unfold CLog.Log
  simp only [hc, hm, Bool.not_true, Bool.false_eq_true, if_false]
  by_cases hz : (level_ &&& s.m_filter_mask_con ||| level_ &&& s.m_filter_mask_file
      ||| level_ &&& s.m_filter_mask_udp) = 0
  · have h := (Nat_lor_eq_zero _ _).1 hz
    have h12 := (Nat_lor_eq_zero _ _).1 h.1
    simp [hz, h.2, h12.1, h12.2]
  · simp only [hz, if_false]
    split_ifs <;> simp_all

theorem Create_sender_receiver_fields (env : Env) (s : CLog) :
    (CLog.Create_sender_receiver env s).m_created = true ∧
    (CLog.Create_sender_receiver env s).m_hname = s.m_hname ∧
    (CLog.Create_sender_receiver env s).m_pid = s.m_pid ∧
    (CLog.Create_sender_receiver env s).m_pname = s.m_pname ∧
    (CLog.Create_sender_receiver env s).m_level = s.m_level ∧
    (CLog.Create_sender_receiver env s).m_filter_mask_con = s.m_filter_mask_con ∧
    (CLog.Create_sender_receiver env s).m_filter_mask_file = s.m_filter_mask_file ∧
    (CLog.Create_sender_receiver env s).m_filter_mask_udp = s.m_filter_mask_udp ∧
    (CLog.Create_sender_receiver env s).m_logfile = s.m_logfile ∧
    (CLog.Create_sender_receiver env s).m_log_msglist = s.m_log_msglist ∧
    (s.m_filter_mask_udp ≠ 0 →
      (CLog.Create_sender_receiver env s).m_udp_logging_sender ≠ none) := by
  unfold CLog.Create_sender_receiver
  by_cases h : s.m_filter_mask_udp ≠ 0
  · simp only [if_pos h]
    simp
  · simp only [if_neg h]
    simp [h]

theorem Create_fields (env : Env) (s : CLog) (w : World) :
    (CLog.Create env s w).1.m_hname = env.GetHostName ∧
    (CLog.Create env s w).1.m_pid = env.GetProcessID ∧
    (CLog.Create env s w).1.m_pname = env.GetProcessName ∧
    (CLog.Create env s w).1.m_level = log_level_info ∧
    (CLog.Create env s w).1.m_filter_mask_con = env.GetConsoleLogFilter ∧
    (CLog.Create env s w).1.m_filter_mask_file = env.GetFileLogFilter ∧
    (CLog.Create env s w).1.m_filter_mask_udp = env.GetUdpLogFilter ∧
    (CLog.Create env s w).1.m_log_msglist = s.m_log_msglist := by
  unfold CLog.Create
  dsimp only
  split_ifs <;> simp [Create_sender_receiver_fields]

/-- With a non-zero file mask and a log path that is no directory `Create`
returns early: `m_created` keeps its value and nothing is written. -/
theorem Create_no_log_dir (env : Env) (s : CLog) (w : World)
    (hmask : env.GetFileLogFilter ≠ 0) (hdir : isDirectory env env.GeteCALLogPath = false) :
    (CLog.Create env s w).1.m_created = s.m_created ∧ (CLog.Create env s w).2 = w := by
  unfold CLog.Create
  dsimp only
  rw [if_pos hmask]
  simp [hdir]

/-- When the log directory exists and `fopen` fails, `Create` completes,
with `m_logfile` null. -/
theorem Create_fopen_fails (env : Env) (s : CLog) (w : World)
    (hmask : env.GetFileLogFilter ≠ 0)
    (hdir : isDirectory env env.GeteCALLogPath = true)
    (hopen : env.fopen_w_ok (env.GeteCALLogPath ++ env.get_time_str ++ "_" ++ env.GetUnitName
      ++ "_" ++ toString env.GetProcessID ++ ".log") = false) :
    (CLog.Create env s w).1.m_created = true ∧
    (CLog.Create env s w).1.m_logfile = none ∧
    (env.GetUdpLogFilter ≠ 0 → (CLog.Create env s w).1.m_udp_logging_sender ≠ none) := by
  unfold CLog.Create
  dsimp only
  rw [if_pos hmask]
  simp only [hdir, hopen, Bool.not_true, Bool.false_eq_true, if_false]
  refine ⟨(Create_sender_receiver_fields env _).1, ?_, ?_⟩
  · rw [(Create_sender_receiver_fields env _).2.2.2.2.2.2.2.2.1]
  · intro h
    exact (Create_sender_receiver_fields env _).2.2.2.2.2.2.2.2.2.2 h

/-- The `fopen` failure is swallowed for the file sink only: after such a
`Create`, `Log` with a non-empty message prints to the console when the level
matches the console mask, sends when it matches the UDP mask, and writes no
file line. -/
theorem Log_after_Create_fopen_fails (env env1 : Env) (s : CLog) (w w1 : World)
    (level_ : Nat) (msg_ : String) (hmask : env.GetFileLogFilter ≠ 0)
    (hdir : isDirectory env env.GeteCALLogPath = true)
    (hopen : env.fopen_w_ok (env.GeteCALLogPath ++ env.get_time_str ++ "_" ++ env.GetUnitName
      ++ "_" ++ toString env.GetProcessID ++ ".log") = false)
    (hm : msg_ ≠ "") :
    (level_ &&& env.GetConsoleLogFilter ≠ 0 →
      ((CLog.Create env s w).1.Log env1 w1 level_ msg_).2.cout = w1.cout ++ [msg_]) ∧
    (level_ &&& env.GetUdpLogFilter ≠ 0 →
      ((CLog.Create env s w).1.Log env1 w1 level_ msg_).2.udp_sent
        = w1.udp_sent ++ [compose_ecal_msg env1 (CLog.Create env s w).1 w1.ecal_msg
            env1.ecal_clock_now level_ msg_]) ∧
    ((CLog.Create env s w).1.Log env1 w1 level_ msg_).2.logfile = w1.logfile := by
  obtain ⟨hc, hfile, hsender⟩ := Create_fopen_fails env s w hmask hdir hopen
  obtain ⟨-, -, -, -, hcon, -, hudp, -⟩ := Create_fields env s w
  rw [Log_world env1 _ w1 level_ msg_ hc hm]
  refine ⟨?_, ?_, ?_⟩
  · intro h
    simp [hcon, h]
  · intro h
    have hu : env.GetUdpLogFilter ≠ 0 := by
      intro h0
      rw [h0] at h
      simp at h
    simp [hudp, h, hsender hu]
  · simp [hfile]

/-- With a non-zero file mask and a log path that is no directory, every
`Log` call on a new logger after `Create` does nothing at all. -/
theorem Log_after_Create_no_log_dir (env env1 : Env) (w w1 : World) (level_ : Nat)
    (msg_ : String) (hmask : env.GetFileLogFilter ≠ 0)
    (hdir : isDirectory env env.GeteCALLogPath = false) :
    ((CLog.Create env CLog.new w).1.Log env1 w1 level_ msg_).2 = w1 := by
  rw [Log_not_created]
  left
  rw [(Create_no_log_dir env CLog.new w hmask hdir).1]
  rfl

/-- C4: on a created logger and for a non-empty message, `Log` decides for
each sink by that sink's own mask: the message is printed to the console
exactly when `level & console mask` is non-zero, the file line is written
exactly when `level & file mask` is non-zero and a log file is open, the
record is sent exactly when `level & UDP mask` is non-zero and a sender
exists. A warning with console mask `error | fatal`, a file mask that
contains `warning` and an open log file prints nothing and writes the file
line. -/
theorem C4_Log_routes_by_mask (env : Env) (s : CLog) (w : World) (level_ : Nat)
    (msg_ : String) (hc : s.m_created = true) (hm : msg_ ≠ "") :
    (s.Log env w level_ msg_).2.cout
        = (if level_ &&& s.m_filter_mask_con ≠ 0 then w.cout ++ [msg_] else w.cout) ∧
    (s.Log env w level_ msg_).2.logfile
        = (if level_ &&& s.m_filter_mask_file ≠ 0 ∧ s.m_logfile ≠ none then
            w.logfile ++ [c_str (file_line env s env.ecal_clock_now level_ msg_) ++ "\n"]
          else w.logfile) ∧
    (s.Log env w level_ msg_).2.udp_sent
        = (if level_ &&& s.m_filter_mask_udp ≠ 0 ∧ s.m_udp_logging_sender ≠ none then
            w.udp_sent ++ [compose_ecal_msg env s w.ecal_msg env.ecal_clock_now level_ msg_]
          else w.udp_sent) ∧
    (level_ = log_level_warning →
      s.m_filter_mask_con = log_level_error ||| log_level_fatal →
      log_level_warning &&& s.m_filter_mask_file ≠ 0 → s.m_logfile ≠ none →
      (s.Log env w level_ msg_).2.cout = w.cout ∧
      (s.Log env w level_ msg_).2.logfile
        = w.logfile ++ [c_str (file_line env s env.ecal_clock_now level_ msg_) ++ "\n"]) := by
  rw [Log_world env s w level_ msg_ hc hm]
  refine ⟨rfl, rfl, rfl, ?_⟩
  intro hl hcon hfile hopen
  subst hl
  have h0 : log_level_warning &&& (log_level_error ||| log_level_fatal) = 0 := by decide
  simp [hcon, h0, hfile, hopen]

/-- The scenario of C4 on the logger created in `env_con_errors`: the
warning is not printed and its line is written to the log file. -/
theorem C4_Log_routes_by_mask_witness :
    (CLog.Create env_con_errors CLog.new world_empty).1.m_created = true ∧
    "disk almost full" ≠ "" ∧
    ((CLog.Create env_con_errors CLog.new world_empty).1.Log env_con_errors world_empty
        log_level_warning "disk almost full").2.cout = [] ∧
    ((CLog.Create env_con_errors CLog.new world_empty).1.Log env_con_errors world_empty
        log_level_warning "disk almost full").2.logfile
      = ["1700000000123 ms | hostA | unit | 4711 | warning | disk almost full\n"] :=
  ⟨by decide, by decide,
    ((C4_Log_routes_by_mask env_con_errors (CLog.Create env_con_errors CLog.new world_empty).1
      world_empty log_level_warning "disk almost full" (by decide) (by decide)).2.2.2
        rfl (by decide) (by decide) (by decide)).1,
    ((C4_Log_routes_by_mask env_con_errors (CLog.Create env_con_errors CLog.new world_empty).1
      world_empty log_level_warning "disk almost full" (by decide) (by decide)).2.2.2
        rfl (by decide) (by decide) (by decide)).2.trans (by decide)⟩

/-- C5: in `env_no_log_dir` the file mask is non-zero, the log path is no
directory, and the level `info` matches the console mask and the UDP mask;
all the same, after `Create` on a new logger the logger is not created and
`Log(info, "hello")` prints nothing, sends nothing and writes nothing. -/
theorem C5_no_log_dir_silences_console_and_udp :
    env_no_log_dir.GetFileLogFilter ≠ 0 ∧
    isDirectory env_no_log_dir env_no_log_dir.GeteCALLogPath = false ∧
    log_level_info &&& env_no_log_dir.GetConsoleLogFilter ≠ 0 ∧
    log_level_info &&& env_no_log_dir.GetUdpLogFilter ≠ 0 ∧
    (CLog.Create env_no_log_dir CLog.new world_empty).1.m_created = false ∧
    ((CLog.Create env_no_log_dir CLog.new world_empty).1.Log env_no_log_dir world_empty
      log_level_info "hello").2 = world_empty := by
  decide

/-- C6: whenever a `Log` call made after `Create` and any further calls
sends a record, exactly one record is sent and it is: time = the log time
in microseconds, host name, process id and process name = the values read at
`Create`, unit name = the unit name at the time of the call, level = the
level argument, content = the message; the old content of the static
`ecal_msg` has no influence. -/
theorem C6_Log_network_record (env0 env : Env) (s0 : CLog) (w0 : World)
    (t : List (Env × Call)) (σ : Sys) (level_ : Nat) (msg_ : String)
    (hσ : σ = run t (after_Create env0 s0 w0))
    (hsent : (σ.log.Log env σ.world level_ msg_).2.udp_sent ≠ σ.world.udp_sent) :
    (σ.log.Log env σ.world level_ msg_).2.udp_sent
      = σ.world.udp_sent ++
        [{ time := Int.tdiv env.ecal_clock_now 1000
           hname := env0.GetHostName
           pid := env0.GetProcessID
           pname := env0.GetProcessName
           uname := env.GetUnitName
           level := (level_ : Int)
           content := msg_ }] := by
  have hid := run_identity t (after_Create env0 s0 w0)
  rw [← hσ] at hid
  obtain ⟨hh, hp, hn, -⟩ := Create_fields env0 s0 w0
  simp only [after_Create] at hid
  rw [hh, hp, hn] at hid
  by_cases hcm : σ.log.m_created = false ∨ msg_ = ""
  · rw [Log_not_created env σ.log σ.world level_ msg_ hcm] at hsent
    exact absurd rfl hsent
  · have hc : σ.log.m_created = true := by
      cases h : σ.log.m_created
      · exact absurd (Or.inl h) hcm
      · rfl
    have hm : msg_ ≠ "" := fun h => hcm (Or.inr h)
    rw [Log_world env σ.log σ.world level_ msg_ hc hm] at hsent ⊢
    by_cases hcond : level_ &&& σ.log.m_filter_mask_udp ≠ 0 ∧ σ.log.m_udp_logging_sender ≠ none
    · simp only [if_pos hcond]
      simp [compose_ecal_msg, LogMessage.Clear, hid.1, hid.2.1, hid.2.2]
    · simp only [if_neg hcond] at hsent
      exact absurd rfl hsent

/-- An instance of C6: after `Create` in `env_hostA` and a `SetLogLevel`,
`Log(info, "hello")` sends one record with the fields as stated. -/
theorem C6_Log_network_record_witness :
    run [(env_hostA, Call.SetLogLevel log_level_error)]
        (after_Create env_hostA CLog.new world_empty)
      = run [(env_hostA, Call.SetLogLevel log_level_error)]
        (after_Create env_hostA CLog.new world_empty) ∧
    ((run [(env_hostA, Call.SetLogLevel log_level_error)]
        (after_Create env_hostA CLog.new world_empty)).log.Log env_hostA
      (run [(env_hostA, Call.SetLogLevel log_level_error)]
        (after_Create env_hostA CLog.new world_empty)).world log_level_info "hello").2.udp_sent
      ≠ (run [(env_hostA, Call.SetLogLevel log_level_error)]
        (after_Create env_hostA CLog.new world_empty)).world.udp_sent ∧
    ((run [(env_hostA, Call.SetLogLevel log_level_error)]
        (after_Create env_hostA CLog.new world_empty)).log.Log env_hostA
      (run [(env_hostA, Call.SetLogLevel log_level_error)]
        (after_Create env_hostA CLog.new world_empty)).world log_level_info "hello").2.udp_sent
      = (run [(env_hostA, Call.SetLogLevel log_level_error)]
        (after_Create env_hostA CLog.new world_empty)).world.udp_sent ++
        [{ time := 1700000000123456
           hname := "hostA"
           pid := 4711
           pname := "proc"
           uname := "unit"
           level := 1
           content := "hello" }] :=
  ⟨rfl, by decide,
    C6_Log_network_record env_hostA env_hostA CLog.new world_empty
      [(env_hostA, Call.SetLogLevel log_level_error)] _ log_level_info "hello" rfl (by decide)⟩

/-! ## The core timer: claim C7 -/

theorem RegisterLogMessage_keeps (env : Env) (s : CLog) (r : LogMessage) :
    (s.RegisterLogMessage env r).m_level = s.m_level ∧
    (s.RegisterLogMessage env r).m_filter_mask_con = s.m_filter_mask_con ∧
    (s.RegisterLogMessage env r).m_filter_mask_file = s.m_filter_mask_file ∧
    (s.RegisterLogMessage env r).m_filter_mask_udp = s.m_filter_mask_udp ∧
    (s.RegisterLogMessage env r).m_core_time_start = s.m_core_time_start ∧
    (s.RegisterLogMessage env r).m_core_time = s.m_core_time := by
  unfold CLog.RegisterLogMessage
  split_ifs <;> simp

theorem Destroy_keeps (s : CLog) :
    s.Destroy.m_level = s.m_level ∧
    s.Destroy.m_filter_mask_con = s.m_filter_mask_con ∧
    s.Destroy.m_filter_mask_file = s.m_filter_mask_file ∧
    s.Destroy.m_filter_mask_udp = s.m_filter_mask_udp ∧
    s.Destroy.m_core_time_start = s.m_core_time_start ∧
    s.Destroy.m_core_time = s.m_core_time := by
  unfold CLog.Destroy
  split_ifs <;> simp

theorem step_core_time_start (env : Env) (c : Call) (σ : Sys)
    (h : no_StartCoreTimer_call c = true) :
    (step env c σ).log.m_core_time_start = σ.log.m_core_time_start := by
  cases c <;>
    simp_all [step, no_StartCoreTimer_call, CLog.Log_msg, Log_fst, CLog.SetLogLevel,
      CLog.StopCoreTimer, CLog.SetCoreTime, GetLogging_eq, RegisterLogMessage_keeps,
      Destroy_keeps]

theorem step_core_time (env : Env) (c : Call) (σ : Sys)
    (h : no_StopCoreTimer_SetCoreTime_call c = true) :
    (step env c σ).log.m_core_time = σ.log.m_core_time := by
  cases c <;>
    simp_all [step, no_StopCoreTimer_SetCoreTime_call, CLog.Log_msg, Log_fst,
      CLog.SetLogLevel, CLog.StartCoreTimer, GetLogging_eq, RegisterLogMessage_keeps,
      Destroy_keeps]

theorem run_core_time_start (t : List (Env × Call)) (σ : Sys)
    (h : ∀ a ∈ t, no_StartCoreTimer_call a.2 = true) :
    (run t σ).log.m_core_time_start = σ.log.m_core_time_start := by
  induction t generalizing σ with
  | nil => simp [run]
  | cons a rest ih =>
      obtain ⟨env, c⟩ := a
      have hc : no_StartCoreTimer_call c = true := h (env, c) (List.mem_cons_self _ _)
      have hr : ∀ a ∈ rest, no_StartCoreTimer_call a.2 = true :=
        fun a ha => h a (List.mem_cons_of_mem _ ha)
      rw [run, ih _ hr]
      exact step_core_time_start env c σ hc

theorem run_core_time (t : List (Env × Call)) (σ : Sys)
    (h : ∀ a ∈ t, no_StopCoreTimer_SetCoreTime_call a.2 = true) :
    (run t σ).log.m_core_time = σ.log.m_core_time := by
  induction t generalizing σ with
  | nil => simp [run]
  | cons a rest ih =>
      obtain ⟨env, c⟩ := a
      have hc : no_StopCoreTimer_SetCoreTime_call c = true :=
        h (env, c) (List.mem_cons_self _ _)
      have hr : ∀ a ∈ rest, no_StopCoreTimer_SetCoreTime_call a.2 = true :=
        fun a ha => h a (List.mem_cons_of_mem _ ha)
      rw [run, ih _ hr]
      exact step_core_time env c σ hc

theorem run_append (t1 t2 : List (Env × Call)) (σ : Sys) :
    run (t1 ++ t2) σ = run t2 (run t1 σ) := by
  induction t1 generalizing σ with
  | nil => rfl
  | cons a rest ih =>
      obtain ⟨env, c⟩ := a
      simp [run, ih]

/-- The conversion to `duration<double>` of a non-negative count is
non-negative when rounding to `double` is monotone and keeps zero. -/
theorem to_duration_double_nonneg (env : Env) (ns : Int) (hmono : Monotone env.to_double)
    (hzero : env.to_double 0 = 0) (hns : 0 ≤ ns) : 0 ≤ to_duration_double env ns := by
  unfold to_duration_double
  have h1 : 0 ≤ env.to_double (ns : ℚ) := by
    have := hmono (show (0 : ℚ) ≤ (ns : ℚ) by exact_mod_cast hns)
    rwa [hzero] at this
  have h2 : 0 ≤ env.to_double 1000000000 := by
    have := hmono (show (0 : ℚ) ≤ 1000000000 by norm_num)
    rwa [hzero] at this
  have := hmono (div_nonneg h1 h2)
  rwa [hzero] at this

/-- C7: the core timer is a stopwatch. When `StartCoreTimer` is called at
the clock reading `t0` and `StopCoreTimer` at the reading `t1 ≥ t0`, with no
further `StartCoreTimer` in between and neither `SetCoreTime` nor a further
`StopCoreTimer` after, `GetCoreTime` returns the duration `t1 - t0`
converted to `duration<double>`: it is non-negative, and it is
`(t1 - t0) / 10^9` seconds where the conversion is exact. `StartCoreTimer`
alone leaves the value of `GetCoreTime` as it was. -/
theorem C7_core_timer_stopwatch (env0 env1 : Env) (σ : Sys)
    (t_mid t_after : List (Env × Call))
    (hmid : ∀ a ∈ t_mid, no_StartCoreTimer_call a.2 = true)
    (hafter : ∀ a ∈ t_after, no_StopCoreTimer_SetCoreTime_call a.2 = true)
    (hmono : Monotone env1.to_double) (hzero : env1.to_double 0 = 0)
    (hle : env0.steady_clock_now ≤ env1.steady_clock_now) :
    (run ([(env0, Call.StartCoreTimer)] ++ t_mid ++ [(env1, Call.StopCoreTimer)] ++ t_after)
        σ).log.GetCoreTime
      = to_duration_double env1 (env1.steady_clock_now - env0.steady_clock_now) ∧
    0 ≤ (run ([(env0, Call.StartCoreTimer)] ++ t_mid ++ [(env1, Call.StopCoreTimer)] ++ t_after)
        σ).log.GetCoreTime ∧
    ((∀ q, env1.to_double q = q) →
      (run ([(env0, Call.StartCoreTimer)] ++ t_mid ++ [(env1, Call.StopCoreTimer)] ++ t_after)
          σ).log.GetCoreTime
        = ((env1.steady_clock_now - env0.steady_clock_now : Int) : ℚ) / 1000000000) ∧
    (σ.log.StartCoreTimer env0).GetCoreTime = σ.log.GetCoreTime := by
  have hval : (run ([(env0, Call.StartCoreTimer)] ++ t_mid ++ [(env1, Call.StopCoreTimer)]
      ++ t_after) σ).log.GetCoreTime
      = to_duration_double env1 (env1.steady_clock_now - env0.steady_clock_now) := by
    rw [run_append, run_append, run_append]
    unfold CLog.GetCoreTime
    rw [run_core_time t_after _ hafter]
    simp only [run, step, CLog.StopCoreTimer]
    rw [run_core_time_start t_mid _ hmid]
    rfl
  refine ⟨hval, ?_, ?_, rfl⟩
  · rw [hval]
    exact to_duration_double_nonneg env1 _ hmono hzero (sub_nonneg.mpr hle)
  · intro hid
    rw [hval]
    simp [to_duration_double, hid]

/-- An instance of C7: started at reading 5000 ns and stopped at reading
2000005000 ns, the core time is 2 seconds. -/
theorem C7_core_timer_stopwatch_witness :
    (∀ a ∈ [(env_hostA, Call.SetCoreTime 7)], no_StartCoreTimer_call a.2 = true) ∧
    (∀ a ∈ [(env_later, Call.StartCoreTimer)],
      no_StopCoreTimer_SetCoreTime_call a.2 = true) ∧
    Monotone env_later.to_double ∧ env_later.to_double 0 = 0 ∧
    env_hostA.steady_clock_now ≤ env_later.steady_clock_now ∧
    (run ([(env_hostA, Call.StartCoreTimer)] ++ [(env_hostA, Call.SetCoreTime 7)]
        ++ [(env_later, Call.StopCoreTimer)] ++ [(env_later, Call.StartCoreTimer)])
        (after_Create env_hostA CLog.new world_empty)).log.GetCoreTime = 2 :=
  ⟨by decide, by decide, fun _ _ h => h, rfl, by decide,
    ((C7_core_timer_stopwatch env_hostA env_later (after_Create env_hostA CLog.new world_empty)
      [(env_hostA, Call.SetCoreTime 7)] [(env_later, Call.StartCoreTimer)] (by decide)
      (by decide) (fun _ _ h => h) rfl (by decide)).2.2.1 (fun _ => rfl)).trans (by
        simp [env_later, env_hostA]; norm_num)⟩

/-! ## Configuration: claim C8 -/

theorem same_except_config_fields (e1 e2 : Env) (h : same_except_config e1 e2) :
    e1.GetUnitName = e2.GetUnitName ∧ e1.ecal_clock_now = e2.ecal_clock_now ∧
    e1.steady_clock_now = e2.steady_clock_now ∧ e1.to_double = e2.to_double := by
  unfold same_except_config at h
  exact ⟨(congrArg Env.GetUnitName h).symm, (congrArg Env.ecal_clock_now h).symm,
    (congrArg Env.steady_clock_now h).symm, (congrArg Env.to_double h).symm⟩

theorem Log_env_congr (e1 e2 : Env) (s : CLog) (w : World) (level_ : Nat) (msg_ : String)
    (hu : e1.GetUnitName = e2.GetUnitName) (hc : e1.ecal_clock_now = e2.ecal_clock_now) :
    s.Log e1 w level_ msg_ = s.Log e2 w level_ msg_ := by
  unfold CLog.Log file_line compose_ecal_msg
  rw [hu, hc]

theorem step_env_congr (e1 e2 : Env) (c : Call) (σ : Sys) (h : same_except_config e1 e2)
    (hflag : (∃ r, c = Call.RegisterLogMessage r) → e1.IsNetworkEnabled = e2.IsNetworkEnabled) :
    step e1 c σ = step e2 c σ := by
  obtain ⟨hu, hc, hs, hd⟩ := same_except_config_fields e1 e2 h
  cases c with
  | Log level_ msg_ => simp only [step, Log_env_congr e1 e2 _ _ _ _ hu hc]
  | Log_msg msg_ => simp only [step, CLog.Log_msg, Log_env_congr e1 e2 _ _ _ _ hu hc]
  | StartCoreTimer => simp only [step, CLog.StartCoreTimer, hs]
  | StopCoreTimer => simp only [step, CLog.StopCoreTimer, to_duration_double, hs, hd]
  | RegisterLogMessage r =>
      have hf := hflag ⟨r, rfl⟩
      simp only [step, CLog.RegisterLogMessage, hf]
  | _ => rfl

theorem run_env_congr (t1 t2 : List (Env × Call)) (σ : Sys)
    (h : same_calls_except_masks t1 t2) : run t1 σ = run t2 σ := by
  unfold same_calls_except_masks at h
  induction h generalizing σ with
  | nil => rfl
  | @cons a b l1 l2 hab _ ih =>
      obtain ⟨e1, c1⟩ := a
      obtain ⟨e2, c2⟩ := b
      obtain ⟨hc, he, hf⟩ := hab
      simp only at hc he hf
      subst hc
      rw [run, run, step_env_congr e1 e2 c1 σ he hf, ih]

theorem step_masks (env : Env) (c : Call) (σ : Sys) :
    (step env c σ).log.m_filter_mask_con = σ.log.m_filter_mask_con ∧
    (step env c σ).log.m_filter_mask_file = σ.log.m_filter_mask_file ∧
    (step env c σ).log.m_filter_mask_udp = σ.log.m_filter_mask_udp := by
  cases c <;>
    simp [step, CLog.Log_msg, Log_fst, CLog.SetLogLevel, CLog.StartCoreTimer,
      CLog.StopCoreTimer, CLog.SetCoreTime, GetLogging_eq, RegisterLogMessage_keeps,
      Destroy_keeps]

theorem run_masks (t : List (Env × Call)) (σ : Sys) :
    (run t σ).log.m_filter_mask_con = σ.log.m_filter_mask_con ∧
    (run t σ).log.m_filter_mask_file = σ.log.m_filter_mask_file ∧
    (run t σ).log.m_filter_mask_udp = σ.log.m_filter_mask_udp := by
  induction t generalizing σ with
  | nil => simp [run]
  | cons a rest ih =>
      obtain ⟨env, c⟩ := a
      rw [run, (ih _).1, (ih _).2.1, (ih _).2.2]
      exact step_masks env c σ

/-- C8, as stated, fails: two runs with the same `Create` and the same call
`RegisterLogMessage(record_hostB)`, whose environments differ only in the
network flag at the time of that call (the flag was false at `Create` in
both), end with different buffers. -/
theorem C8_policy_flag_is_read_at_every_record :
    ¬ (∀ (env0 : Env) (s : CLog) (w : World) (t1 t2 : List (Env × Call)),
        same_calls_except_config t1 t2 →
        run t1 (after_Create env0 s w) = run t2 (after_Create env0 s w)) := by
  intro h
  have h1 := h env_hostA CLog.new world_empty
    [(env_hostA, Call.RegisterLogMessage record_hostB)]
    [(env_network, Call.RegisterLogMessage record_hostB)]
    (List.Forall₂.cons ⟨rfl, rfl⟩ List.Forall₂.nil)
  have h2 := congrArg (fun σ => σ.log.m_log_msglist) h1
  revert h2
  decide

/-- C8, amended: the three masks are read once, at `Create`. Two runs with
the same `Create` and the same calls, whose environments after `Create`
differ at most in the three mask values everywhere and in the network flag
at calls other than `RegisterLogMessage`, end in the same state with the
same output, and the masks in use are those read at `Create`. The network
flag is read at every `RegisterLogMessage` call: a record of a foreign host
is appended exactly when the flag is set at the time of that call. -/
theorem C8_masks_read_at_Create_flag_at_every_record (env0 : Env) (s : CLog) (w : World)
    (t1 t2 : List (Env × Call)) (h : same_calls_except_masks t1 t2) :
    run t1 (after_Create env0 s w) = run t2 (after_Create env0 s w) ∧
    (run t1 (after_Create env0 s w)).log.m_filter_mask_con = env0.GetConsoleLogFilter ∧
    (run t1 (after_Create env0 s w)).log.m_filter_mask_file = env0.GetFileLogFilter ∧
    (run t1 (after_Create env0 s w)).log.m_filter_mask_udp = env0.GetUdpLogFilter ∧
    (∀ (env : Env) (r : LogMessage), r.hname ≠ env0.GetHostName →
      ((run t1 (after_Create env0 s w)).log.RegisterLogMessage env r).m_log_msglist
        = if env.IsNetworkEnabled = true then
            (run t1 (after_Create env0 s w)).log.m_log_msglist ++ [r]
          else (run t1 (after_Create env0 s w)).log.m_log_msglist) := by
  obtain ⟨hh, -, -, -, hcon, hfile, hudp, -⟩ := Create_fields env0 s w
  obtain ⟨m1, m2, m3⟩ := run_masks t1 (after_Create env0 s w)
  refine ⟨run_env_congr t1 t2 _ h, ?_, ?_, ?_, ?_⟩
  · rw [m1]; exact hcon
  · rw [m2]; exact hfile
  · rw [m3]; exact hudp
  · intro env r hr
    have hname : (run t1 (after_Create env0 s w)).log.m_hname = env0.GetHostName := by
      rw [(run_identity t1 _).1]; exact hh
    have hne : ¬ (run t1 (after_Create env0 s w)).log.m_hname = r.hname := by
      rw [hname]; exact fun e => hr e.symm
    unfold CLog.RegisterLogMessage
    by_cases hf : env.IsNetworkEnabled = true
    · simp [hf]
    · simp [hf, hne]

/-- An instance of amended C8: the console mask changes to `error | fatal`
after `Create`, and `Log(info, "hello")` still prints, by the mask read at
`Create`. -/
theorem C8_masks_read_at_Create_flag_at_every_record_witness :
    same_calls_except_masks
      [(env_hostA, Call.Log log_level_info "hello"),
        (env_hostA, Call.RegisterLogMessage record_hostB)]
      [(env_con_errors, Call.Log log_level_info "hello"),
        (env_con_errors, Call.RegisterLogMessage record_hostB)] ∧
    (run [(env_hostA, Call.Log log_level_info "hello"),
        (env_hostA, Call.RegisterLogMessage record_hostB)]
        (after_Create env_hostA CLog.new world_empty)).world.cout = ["hello"] ∧
    (run [(env_con_errors, Call.Log log_level_info "hello"),
        (env_con_errors, Call.RegisterLogMessage record_hostB)]
        (after_Create env_hostA CLog.new world_empty)).world.cout = ["hello"] :=
  ⟨List.Forall₂.cons ⟨rfl, rfl, fun _ => rfl⟩
      (List.Forall₂.cons ⟨rfl, rfl, fun _ => rfl⟩ List.Forall₂.nil),
    by decide,
    (congrArg (fun σ => σ.world.cout)
      (C8_masks_read_at_Create_flag_at_every_record env_hostA CLog.new world_empty _ _
        (List.Forall₂.cons ⟨rfl, rfl, fun _ => rfl⟩
          (List.Forall₂.cons ⟨rfl, rfl, fun _ => rfl⟩ List.Forall₂.nil))).1).symm.trans
      (by decide)⟩

/-! ## No-op cases of `Log` and the log level: claims C9 and C10 -/

theorem Destroy_not_created (s : CLog) : s.Destroy.m_created = false := by
  unfold CLog.Destroy
  cases h : s.m_created <;> simp [h]

/-- C9: `Log` changes nothing at all (logger, console, file, sent records,
static message) when the logger is not created or the message is empty,
for every level and all masks; a new logger and a destroyed logger are not
created. In every case `Log` returns the logger as it was, so the buffer of
received records is unchanged. -/
theorem C9_Log_no_op_and_buffer_frame (env : Env) (s : CLog) (w : World) (level_ : Nat)
    (msg_ : String) :
    (s.m_created = false ∨ msg_ = "" → s.Log env w level_ msg_ = (s, w)) ∧
    (CLog.new.Log env w level_ msg_ = (CLog.new, w)) ∧
    (s.Destroy.Log env w level_ msg_ = (s.Destroy, w)) ∧
    (s.Log env w level_ msg_).1 = s ∧
    (s.Log env w level_ msg_).1.m_log_msglist = s.m_log_msglist := by
  refine ⟨Log_not_created env s w level_ msg_, ?_, ?_, Log_fst env s w level_ msg_, ?_⟩
  · exact Log_not_created env _ w level_ msg_ (Or.inl rfl)
  · exact Log_not_created env _ w level_ msg_ (Or.inl (Destroy_not_created s))
  · rw [Log_fst]

theorem step_level (env : Env) (c : Call) (σ : Sys) (h : no_SetLogLevel_call c = true) :
    (step env c σ).log.m_level = σ.log.m_level := by
  cases c <;>
    simp_all [step, no_SetLogLevel_call, CLog.Log_msg, Log_fst, CLog.StartCoreTimer,
      CLog.StopCoreTimer, CLog.SetCoreTime, GetLogging_eq, RegisterLogMessage_keeps,
      Destroy_keeps]

theorem run_level (t : List (Env × Call)) (σ : Sys)
    (h : ∀ a ∈ t, no_SetLogLevel_call a.2 = true) :
    (run t σ).log.m_level = σ.log.m_level := by
  induction t generalizing σ with
  | nil => simp [run]
  | cons a rest ih =>
      obtain ⟨env, c⟩ := a
      have hc : no_SetLogLevel_call c = true := h (env, c) (List.mem_cons_self _ _)
      have hr : ∀ a ∈ rest, no_SetLogLevel_call a.2 = true :=
        fun a ha => h a (List.mem_cons_of_mem _ ha)
      rw [run, ih _ hr]
      exact step_level env c σ hc

/-- C10: `Log(msg)` is `Log(l, msg)` for `l = GetLogLevel()`. `SetLogLevel`
followed by `GetLogLevel` returns the level set, and `SetLogLevel` changes
the field `m_level` only. After `SetLogLevel(l)` and any calls other than
`SetLogLevel`, the level is `l` and `Log(msg)` is `Log(l, msg)`; after
`Create` and any calls other than `SetLogLevel`, the level is `info` and
`Log(msg)` is `Log(info, msg)`. -/
theorem C10_Log_msg_uses_current_level (env : Env) (s : CLog) (w : World) (d : List Logging)
    (msg_ : String) (level_ : Nat) (env0 : Env) (t : List (Env × Call))
    (ht : ∀ a ∈ t, no_SetLogLevel_call a.2 = true) :
    s.Log_msg env w msg_ = s.Log env w s.GetLogLevel msg_ ∧
    (s.SetLogLevel level_).GetLogLevel = level_ ∧
    s.SetLogLevel level_ = { s with m_level := level_ } ∧
    (run t ⟨s.SetLogLevel level_, w, d⟩).log.GetLogLevel = level_ ∧
    (run t ⟨s.SetLogLevel level_, w, d⟩).log.Log_msg env
        (run t ⟨s.SetLogLevel level_, w, d⟩).world msg_
      = (run t ⟨s.SetLogLevel level_, w, d⟩).log.Log env
        (run t ⟨s.SetLogLevel level_, w, d⟩).world level_ msg_ ∧
    (run t (after_Create env0 s w)).log.GetLogLevel = log_level_info ∧
    (run t (after_Create env0 s w)).log.Log_msg env (run t (after_Create env0 s w)).world msg_
      = (run t (after_Create env0 s w)).log.Log env (run t (after_Create env0 s w)).world
        log_level_info msg_ := by
  have h1 : (run t ⟨s.SetLogLevel level_, w, d⟩).log.m_level = level_ := by
    rw [run_level t _ ht]; rfl
  have h2 : (run t (after_Create env0 s w)).log.m_level = log_level_info := by
    rw [run_level t _ ht]; exact (Create_fields env0 s w).2.2.2.1
  refine ⟨rfl, rfl, rfl, h1, ?_, h2, ?_⟩
  · unfold CLog.Log_msg
    rw [h1]
  · unfold CLog.Log_msg
    rw [h2]

/-- An instance of C10: after `SetLogLevel(error)`, a `RegisterLogMessage`
and a `Log` call, `GetLogLevel` returns `error`. -/
theorem C10_Log_msg_uses_current_level_witness :
    (∀ a ∈ [(env_hostA, Call.RegisterLogMessage record_hostA),
        (env_hostA, Call.Log log_level_info "hello")], no_SetLogLevel_call a.2 = true) ∧
    (run [(env_hostA, Call.RegisterLogMessage record_hostA),
        (env_hostA, Call.Log log_level_info "hello")]
      ⟨(after_Create env_hostA CLog.new world_empty).log.SetLogLevel log_level_error,
        world_empty, []⟩).log.GetLogLevel = log_level_error :=
  ⟨by decide,
    (C10_Log_msg_uses_current_level env_hostA
      (after_Create env_hostA CLog.new world_empty).log world_empty [] "x" log_level_error
      env_hostA _ (by decide)).2.2.2.1⟩

/-! ## The monitoring facade: claim C11 -/

theorem cast_int_of_lt (n : Nat) (h : n < 2147483648) : cast_int n = (n : Int) := by
  unfold cast_int
  rw [Nat.mod_eq_of_lt (by omega)]
  push_cast
  omega

/-- C11: `Monitoring::GetLogging(log_)` replaces `log_`, whatever it held, by
the serialization of the `Logging` message whose records are the buffer of
the global logger in buffer (arrival) order, returns the number of bytes of
the new `log_`, and leaves the logger with an empty buffer and otherwise as
it was. Without a global logger it writes the serialization of the empty
`Logging` message and returns its number of bytes. The serializations are
shorter than 2^31 bytes, the largest size protobuf serializes, so that the
length fits the returned `int`. -/
theorem C11_Monitoring_GetLogging (SerializeAsString : Logging → List Nat) (s : CLog)
    (log_ : List Nat)
    (hsize : (SerializeAsString { logs := s.m_log_msglist }).length < 2147483648)
    (hempty : (SerializeAsString { logs := [] }).length < 2147483648) :
    (Monitoring.GetLogging SerializeAsString (some s) log_).2.1
      = SerializeAsString { logs := s.m_log_msglist } ∧
    (Monitoring.GetLogging SerializeAsString (some s) log_).2.2
      = ((Monitoring.GetLogging SerializeAsString (some s) log_).2.1.length : Int) ∧
    (Monitoring.GetLogging SerializeAsString (some s) log_).1
      = some { s with m_log_msglist := [] } ∧
    (Monitoring.GetLogging SerializeAsString none log_).2.1
      = SerializeAsString { logs := [] } ∧
    (Monitoring.GetLogging SerializeAsString none log_).2.2
      = ((Monitoring.GetLogging SerializeAsString none log_).2.1.length : Int) ∧
    (Monitoring.GetLogging SerializeAsString none log_).1 = none := by
  have hsome : Monitoring.GetLogging SerializeAsString (some s) log_
      = (some { s with m_log_msglist := [] }, SerializeAsString { logs := s.m_log_msglist },
          cast_int (SerializeAsString { logs := s.m_log_msglist }).length) := by
    simp only [Monitoring.GetLogging, GetLogging_eq]
  have hnone : Monitoring.GetLogging SerializeAsString none log_
      = (none, SerializeAsString { logs := [] },
          cast_int (SerializeAsString { logs := [] }).length) := rfl
  rw [hsome, hnone]
  exact ⟨rfl, cast_int_of_lt _ hsize, rfl, rfl, cast_int_of_lt _ hempty, rfl⟩

/-- An instance of C11: the logger has buffered `record_hostA`, whose content
is `local`; the facade writes the seven bytes of its serialization over the
old content of `log_`, returns 7, and the buffer is empty afterwards. -/
theorem C11_Monitoring_GetLogging_witness :
    (toy_SerializeAsString { logs := log_hostA_one_record.m_log_msglist }).length
      < 2147483648 ∧
    (toy_SerializeAsString { logs := [] }).length < 2147483648 ∧
    (Monitoring.GetLogging toy_SerializeAsString (some log_hostA_one_record) [1, 2, 3]).2.1
      = [10, 5, 108, 111, 99, 97, 108] ∧
    (Monitoring.GetLogging toy_SerializeAsString (some log_hostA_one_record) [1, 2, 3]).2.2
      = 7 :=
  ⟨by decide, by decide,
    (C11_Monitoring_GetLogging toy_SerializeAsString log_hostA_one_record [1, 2, 3]
      (by decide) (by decide)).1.trans (by decide),
    (C11_Monitoring_GetLogging toy_SerializeAsString log_hostA_one_record [1, 2, 3]
      (by decide) (by decide)).2.1.trans (by decide)⟩

end eCAL
